import Mathlib

/-!
# mackerel-plugin-aws-sqs: latest-point selection and metric fetching

A shallow embedding of `mackerel-plugin-aws-sqs/aws-sqs.go`.

* `time.Time` values are instants, modelled as `Int` nanoseconds relative to the
  Unix epoch (`time.Unix(0, 0)` is `0`, earlier instants are negative).
* `float64` values are only ever copied by the program (never compared nor
  computed with), so every definition is generic in the value type `V`; the only
  thing used is its zero value, the value of an uninitialised `var x float64`.
* Go multi-value returns `(x, err)` are pairs whose second component is
  `Option GoError` (`none` is a nil error).
* A Go `map[string]float64` is an association list with unique keys; a nil map is
  `none : Option (GoMap V)`.
* The AWS client library (`goamz`) and the clock are the environment: they are
  fields of `Env`, one function per library call the program makes.
-/

namespace AwsSqs

/-! ## Data model -/

/-- Instant of a Go `time.Time`: nanoseconds since the Unix epoch. -/
abbrev Time := Int

/-- Value of a Go `error` that is not nil, with its message. -/
structure GoError where
  msg : String
  deriving DecidableEq, Repr

/-- Go `errors.New`. -/
def errorsNew (msg : String) : GoError := ⟨msg⟩

/-- Go `strings.HasPrefix`: `len(s) >= len(p) && s[:len(p)] == p`. -/
def HasPrefix (s p : String) : Bool :=
  decide (p.data.length ≤ s.data.length) && (s.data.take p.data.length == p.data)

/-- Go `time.Second` as a `time.Duration` (nanoseconds). -/
def Second : Int := 1000000000

/-- Go `Time.Add`. -/
def Time.Add (t : Time) (d : Int) : Time := t + d

/-- Go `Time.Before`: strictly earlier instant. -/
def Time.Before (t u : Time) : Bool := decide (t < u)

/-- Go `time.Unix(sec, nsec)`. -/
def timeUnix (sec nsec : Int) : Time := sec * 1000000000 + nsec

/-- Modelled from the spec: `cloudwatch.Datapoint` of the goamz client library,
whose declaration is outside this repository; the fields are the ones the
program reads (`Timestamp`, `Average`) and the other statistics of a
CloudWatch data point (`Sum`, `Minimum`, `Maximum`, `SampleCount`, `Unit`). -/
structure Datapoint (V : Type) where
  Average : V
  Maximum : V
  Minimum : V
  SampleCount : V
  Sum : V
  Timestamp : Time
  Unit : String
  deriving DecidableEq, Repr

/-- Library type `cloudwatch.Dimension`. -/
structure Dimension where
  Name : String
  Value : String
  deriving DecidableEq, Repr

/-- Library type `cloudwatch.GetMetricStatisticsRequest`, with the fields the
program sets. -/
structure GetMetricStatisticsRequest where
  Dimensions : List Dimension
  StartTime : Time
  EndTime : Time
  MetricName : String
  Period : Int
  Statistics : List String
  Namespace : String
  deriving DecidableEq, Repr

/-- Library type `cloudwatch.GetMetricStatisticsResult`. -/
structure GetMetricStatisticsResult (V : Type) where
  Datapoints : List (Datapoint V)
  deriving DecidableEq, Repr

/-- Library type `cloudwatch.GetMetricStatisticsResponse`. -/
structure GetMetricStatisticsResponse (V : Type) where
  GetMetricStatisticsResult : GetMetricStatisticsResult V
  deriving DecidableEq, Repr

/-- Library type `aws.Auth`. -/
structure Auth where
  AccessKey : String
  SecretKey : String
  deriving DecidableEq, Repr

/-- Library type `aws.ServiceInfo`. -/
structure ServiceInfo where
  Endpoint : String
  Signer : Nat
  deriving DecidableEq, Repr

/-- Library type `cloudwatch.CloudWatch`: the client handle. -/
structure CloudWatch where
  Service : ServiceInfo
  Auth : Auth
  deriving DecidableEq, Repr

/-- The calls the program makes into its environment: the clock and the goamz
library. `Now k` is the reading of the `k`-th call of `time.Now()`; a library
call that can fail returns `Except` (error, or the value returned with a nil
error). -/
structure Env (V : Type) where
  Now : Nat → Time
  GetAuth : String → String → String → Time → Except GoError Auth
  CloudWatchServicepoint : String → ServiceInfo
  NewCloudWatch : Auth → ServiceInfo → Except GoError CloudWatch
  GetMetricStatistics :
    CloudWatch → GetMetricStatisticsRequest → Except GoError (GetMetricStatisticsResponse V)

/-- A Go `map[string]float64` that is not nil: association list, keys unique. -/
abbrev GoMap (V : Type) := List (String × V)

/-- Go `m[k] = v`: overwrite the entry of `k`, or add one. -/
def GoMap.set {V : Type} : GoMap V → String → V → GoMap V
  | [], k, v => [(k, v)]
  | (k', v') :: m, k, v => if k' = k then (k, v) :: m else (k', v') :: GoMap.set m k v

/-- Go `v, ok := m[k]`. -/
def GoMap.get? {V : Type} : GoMap V → String → Option V
  | [], _ => none
  | (k', v') :: m, k => if k' = k then some v' else GoMap.get? m k

/-- Keys of a map. -/
def GoMap.keys {V : Type} (m : GoMap V) : List String := m.map Prod.fst

/-! ## The graph schema -/

/-- Library type `mp.Metrics`, with the fields the program sets. -/
structure Metrics where
  Name : String
  Label : String
  deriving DecidableEq, Repr

/-- Library type `mp.Graphs`, with the fields the program sets. -/
structure Graphs where
  Label : String
  Unit : String
  Metrics : List Metrics
  deriving DecidableEq, Repr

/-- The package variable `graphdef` (a map literal, listed in source order). -/
def graphdef : List (String × Graphs) :=
  [ ("sqs.Messages",
      { Label := "SQS NumberOfMessagesSent"
        Unit := "integer"
        Metrics :=
          [ { Name := "NumberOfMessagesSent", Label := "NumberOfMessagesSent" },
            { Name := "NumberOfMessagesReceived", Label := "NumberOfMessagesReceived" },
            { Name := "NumberOfEmptyReceives", Label := "NumberOfEmptyReceives" },
            { Name := "NumberOfMessagesDeleted", Label := "NumberOfMessagesDeleted" } ] }),
    ("sqs.MessageSize",
      { Label := "SQS Message Size"
        Unit := "bytes"
        Metrics := [ { Name := "SentMessageSize", Label := "SentMessageSize" } ] }),
    ("sqs.Queue",
      { Label := "SQS Queue Status"
        Unit := "integer"
        Metrics :=
          [ { Name := "ApproximateNumberOfMessagesDelayed",
              Label := "ApproximateNumberOfMessagesDelayed" },
            { Name := "ApproximateNumberOfMessagesVisible",
              Label := "ApproximateNumberOfMessagesVisible" },
            { Name := "ApproximateNumberOfMessagesNotVisible",
              Label := "ApproximateNumberOfMessagesNotVisible" } ] }) ]

/-- The type `SQSPlugin`. -/
structure SQSPlugin where
  Region : String
  AccessKeyId : String
  SecretAccessKey : String
  QueueName : String
  deriving DecidableEq, Repr

/-- The method `SQSPlugin.GraphDefinition`. -/
def SQSPlugin.GraphDefinition (_p : SQSPlugin) : List (String × Graphs) := graphdef

/-! ## GetLastPoint -/

/-- The statistics list of `GetLastPoint` (source lines 55-58). -/
def GetLastPoint.statistics (metricName : String) : List String :=
  if HasPrefix metricName "Approximate" then ["Average"] else ["Sum"]

/-- The request `GetLastPoint` passes to `GetMetricStatistics` (lines 60-68). -/
def GetLastPoint.request (now : Time) (dimension : Dimension) (metricName : String) :
    GetMetricStatisticsRequest :=
  { Dimensions := [dimension]
    StartTime := Time.Add now (180 * Second * -1)
    EndTime := now
    MetricName := metricName
    Period := 60
    Statistics := GetLastPoint.statistics metricName
    Namespace := "AWS/SQS" }

/-- One iteration of the loop of `GetLastPoint` (lines 80-87) on the state
`(latest, latestVal)`. -/
def GetLastPoint.step {V : Type} (st : Time × V) (dp : Datapoint V) : Time × V :=
  if Time.Before dp.Timestamp st.1 then st else (dp.Timestamp, dp.Average)

/-- The loop of `GetLastPoint` (lines 78-87), from `latest = time.Unix(0, 0)` and
the zero `latestVal`; the result is the final `(latest, latestVal)`. -/
def GetLastPoint.scan {V : Type} [Zero V] (datapoints : List (Datapoint V)) : Time × V :=
  datapoints.foldl GetLastPoint.step (timeUnix 0 0, 0)

/-- The function `GetLastPoint`; `now` is the reading of `time.Now()` at line 53. -/
def GetLastPoint {V : Type} [Zero V] (env : Env V) (now : Time) (cloudWatch : CloudWatch)
    (dimension : Dimension) (metricName : String) : V × Option GoError :=
  match env.GetMetricStatistics cloudWatch (GetLastPoint.request now dimension metricName) with
  | .error err => (0, some err)
  | .ok response =>
    let datapoints := response.GetMetricStatisticsResult.Datapoints
    if datapoints.length = 0 then
      (0, some (errorsNew "fetched no datapoints"))
    else
      ((GetLastPoint.scan datapoints).2, none)

/-! ## FetchMetrics -/

/-- The array literal `FetchMetrics` ranges over (lines 110-119). -/
def metricNames : List String :=
  [ "NumberOfMessagesSent",
    "SentMessageSize",
    "NumberOfMessagesReceived",
    "NumberOfEmptyReceives",
    "NumberOfMessagesDeleted",
    "ApproximateNumberOfMessagesDelayed",
    "ApproximateNumberOfMessagesVisible",
    "ApproximateNumberOfMessagesNotVisible" ]

/-- What `FetchMetrics` produces: its two return values and the lines it wrote
with `log.Printf`. -/
structure FetchResult (V : Type) where
  stat : Option (GoMap V)
  err : Option GoError
  log : List String

/-- The loop of `FetchMetrics` (lines 110-126) over the remaining names; `tick`
counts the calls of `time.Now()` made so far, the state is the map `stat` and
the log. -/
def FetchMetrics.loop {V : Type} [Zero V] (env : Env V) (cloudWatch : CloudWatch)
    (perQueueName : Dimension) : List String → Nat → GoMap V × List String → GoMap V × List String
  | [], _, st => st
  | met :: rest, tick, st =>
    match GetLastPoint env (env.Now tick) cloudWatch perQueueName met with
    | (v, none) =>
      FetchMetrics.loop env cloudWatch perQueueName rest (tick + 1) (st.1.set met v, st.2)
    | (_, some err) =>
      FetchMetrics.loop env cloudWatch perQueueName rest (tick + 1)
        (st.1, st.2 ++ [met ++ ": " ++ err.msg])

/-- The method `SQSPlugin.FetchMetrics`. -/
def SQSPlugin.FetchMetrics {V : Type} [Zero V] (env : Env V) (p : SQSPlugin) : FetchResult V :=
  match env.GetAuth p.AccessKeyId p.SecretAccessKey "" (env.Now 0) with
  | .error err => { stat := none, err := some err, log := [] }
  | .ok auth =>
    match env.NewCloudWatch auth (env.CloudWatchServicepoint p.Region) with
    | .error err => { stat := none, err := some err, log := [] }
    | .ok cloudWatch =>
      let stat : GoMap V := []
      let perQueueName : Dimension := { Name := "QueueName", Value := p.QueueName }
      let out := FetchMetrics.loop env cloudWatch perQueueName metricNames 1 (stat, [])
      { stat := some out.1, err := none, log := out.2 }

/-! ## Fixtures -/

/-- Data point with timestamp `t` and average `v`, every other field zero. -/
def Datapoint.ofAverage {V : Type} [Zero V] (t : Time) (v : V) : Datapoint V :=
  { Average := v, Maximum := 0, Minimum := 0, SampleCount := 0, Sum := 0, Timestamp := t,
    Unit := "" }

/-- Environment in which client setup succeeds and the query for metric name `m`
has outcome `outcome m` (an error, or the returned data points); the `k`-th
reading of the clock is `clock k`. -/
def Env.ofOutcomes {V : Type} (clock : Nat → Time)
    (outcome : String → Except GoError (List (Datapoint V))) : Env V :=
  { Now := clock
    GetAuth := fun a s _ _ => .ok { AccessKey := a, SecretKey := s }
    CloudWatchServicepoint := fun r => { Endpoint := r, Signer := 0 }
    NewCloudWatch := fun a s => .ok { Service := s, Auth := a }
    GetMetricStatistics := fun _ req =>
      match outcome req.MetricName with
      | .error e => .error e
      | .ok dps => .ok { GetMetricStatisticsResult := { Datapoints := dps } } }

/-- Environment in which building the credentials fails. -/
def Env.authFails {V : Type} (e : GoError) : Env V :=
  { Now := fun _ => 0
    GetAuth := fun _ _ _ _ => .error e
    CloudWatchServicepoint := fun r => { Endpoint := r, Signer := 0 }
    NewCloudWatch := fun a s => .ok { Service := s, Auth := a }
    GetMetricStatistics := fun _ _ => .ok { GetMetricStatisticsResult := { Datapoints := [] } } }

/-- The value `FetchMetrics` reports for metric `k`, if any. -/
def FetchResult.value? {V : Type} (r : FetchResult V) (k : String) : Option V :=
  r.stat.bind fun m => m.get? k

/-! ## The scan of GetLastPoint -/

theorem timeUnix_zero : timeUnix 0 0 = 0 := by
  simp [timeUnix]

theorem step_skip {V : Type} (st : Time × V) (dp : Datapoint V) (h : dp.Timestamp < st.1) :
    GetLastPoint.step st dp = st := by
  simp [GetLastPoint.step, Time.Before, h]

theorem step_take {V : Type} (st : Time × V) (dp : Datapoint V) (h : st.1 ≤ dp.Timestamp) :
    GetLastPoint.step st dp = (dp.Timestamp, dp.Average) := by
  simp [GetLastPoint.step, Time.Before, not_lt.mpr h]

/-- Points strictly before the running latest timestamp leave the state as it is. -/
theorem foldl_step_skip {V : Type} (dps : List (Datapoint V)) :
    ∀ st : Time × V, (∀ e ∈ dps, e.Timestamp < st.1) → dps.foldl GetLastPoint.step st = st := by
  induction dps with
  | nil => intro st _; rfl
  | cons d rest ih =>
    intro st h
    have hd : d.Timestamp < st.1 := h d (List.mem_cons_self _ _)
    rw [List.foldl_cons, step_skip st d hd]
    exact ih st fun e he => h e (List.mem_cons_of_mem _ he)

/-- The running latest timestamp never exceeds a bound of the start and the points. -/
theorem foldl_step_le {V : Type} (t : Time) (dps : List (Datapoint V)) :
    ∀ st : Time × V, st.1 ≤ t → (∀ e ∈ dps, e.Timestamp ≤ t) →
      (dps.foldl GetLastPoint.step st).1 ≤ t := by
  induction dps with
  | nil => intro st h _; exact h
  | cons d rest ih =>
    intro st hst h
    rw [List.foldl_cons]
    apply ih
    · have hd : d.Timestamp ≤ t := h d (List.mem_cons_self _ _)
      by_cases hb : d.Timestamp < st.1
      · rw [step_skip st d hb]; exact hst
      · rw [step_take st d (not_lt.mp hb)]; exact hd
    · exact fun e he => h e (List.mem_cons_of_mem _ he)

/-- The state after the loop is the last point holding the maximum timestamp,
when that timestamp is not before the starting one. -/
theorem foldl_step_latest {V : Type} (pre post : List (Datapoint V)) (d : Datapoint V)
    (st : Time × V) (hst : st.1 ≤ d.Timestamp)
    (hpre : ∀ e ∈ pre, e.Timestamp ≤ d.Timestamp)
    (hpost : ∀ e ∈ post, e.Timestamp < d.Timestamp) :
    (pre ++ d :: post).foldl GetLastPoint.step st = (d.Timestamp, d.Average) := by
  rw [List.foldl_append, List.foldl_cons,
    step_take _ d (foldl_step_le d.Timestamp pre st hst hpre)]
  exact foldl_step_skip post _ hpost

/-- Every non-empty list splits at the last point holding its maximum timestamp. -/
theorem exists_last_latest {V : Type} (dps : List (Datapoint V)) (hne : dps ≠ []) :
    ∃ pre d post, dps = pre ++ d :: post ∧ (∀ e ∈ pre, e.Timestamp ≤ d.Timestamp) ∧
      (∀ e ∈ post, e.Timestamp < d.Timestamp) := by
  induction dps with
  | nil => exact absurd rfl hne
  | cons a rest ih =>
    by_cases hr : rest = []
    · subst hr
      exact ⟨[], a, [], rfl, by simp, by simp⟩
    · obtain ⟨pre, d, post, hsplit, hpre, hpost⟩ := ih hr
      by_cases ha : a.Timestamp ≤ d.Timestamp
      · refine ⟨a :: pre, d, post, by rw [hsplit]; rfl, ?_, hpost⟩
        intro e he
        rcases List.mem_cons.mp he with rfl | he
        · exact ha
        · exact hpre e he
      · have hlt : d.Timestamp < a.Timestamp := not_le.mp ha
        refine ⟨[], a, rest, rfl, by simp, ?_⟩
        intro e he
        rw [hsplit] at he
        rcases List.mem_append.mp he with he | he
        · exact lt_of_le_of_lt (hpre e he) hlt
        · rcases List.mem_cons.mp he with rfl | he
          · exact hlt
          · exact lt_trans (hpost e he) hlt

/-- With pairwise distinct timestamps, a point holding the maximum timestamp is
the last such point in the list. -/
theorem split_of_nodup {V : Type} (dps : List (Datapoint V))
    (hnodup : (dps.map fun e => e.Timestamp).Nodup) (d : Datapoint V) (hd : d ∈ dps)
    (hmax : ∀ e ∈ dps, e.Timestamp ≤ d.Timestamp) :
    ∃ pre post, dps = pre ++ d :: post ∧ (∀ e ∈ pre, e.Timestamp ≤ d.Timestamp) ∧
      (∀ e ∈ post, e.Timestamp < d.Timestamp) := by
  obtain ⟨pre, post, hsplit⟩ := List.append_of_mem hd
  refine ⟨pre, post, hsplit, ?_, ?_⟩
  · intro e he
    exact hmax e (by rw [hsplit]; exact List.mem_append_left _ he)
  · intro e he
    have hle : e.Timestamp ≤ d.Timestamp :=
      hmax e (by rw [hsplit]; exact List.mem_append_right _ (List.mem_cons_of_mem _ he))
    refine lt_of_le_of_ne hle ?_
    intro heq
    rw [hsplit, List.map_append, List.map_cons] at hnodup
    have h2 := (List.nodup_append.mp hnodup).2.1
    have h3 := (List.nodup_cons.mp h2).1
    exact h3 (heq ▸ List.mem_map_of_mem (fun e => e.Timestamp) he)

/-- What `GetLastPoint` returns once the query has answered. -/
theorem GetLastPoint_ok {V : Type} [Zero V] (env : Env V) (now : Time) (cw : CloudWatch)
    (dim : Dimension) (m : String) (resp : GetMetricStatisticsResponse V)
    (hq : env.GetMetricStatistics cw (GetLastPoint.request now dim m) = .ok resp)
    (hne : resp.GetMetricStatisticsResult.Datapoints ≠ []) :
    GetLastPoint env now cw dim m =
      ((GetLastPoint.scan resp.GetMetricStatisticsResult.Datapoints).2, none) := by
  have hlen : resp.GetMetricStatisticsResult.Datapoints.length ≠ 0 := by
    simpa [List.length_eq_zero] using hne
  simp [GetLastPoint, hq, hlen]

theorem GetLastPoint_empty {V : Type} [Zero V] (env : Env V) (now : Time) (cw : CloudWatch)
    (dim : Dimension) (m : String) (resp : GetMetricStatisticsResponse V)
    (hq : env.GetMetricStatistics cw (GetLastPoint.request now dim m) = .ok resp)
    (hnil : resp.GetMetricStatisticsResult.Datapoints = []) :
    GetLastPoint env now cw dim m = (0, some (errorsNew "fetched no datapoints")) := by
  simp [GetLastPoint, hq, hnil]

theorem GetLastPoint_error {V : Type} [Zero V] (env : Env V) (now : Time) (cw : CloudWatch)
    (dim : Dimension) (m : String) (err : GoError)
    (hq : env.GetMetricStatistics cw (GetLastPoint.request now dim m) = .error err) :
    GetLastPoint env now cw dim m = (0, some err) := by
  simp [GetLastPoint, hq]

/-- The loop reads only the `Timestamp` and `Average` of each point. -/
theorem foldl_step_congr {V : Type} (l₁ : List (Datapoint V)) :
    ∀ (l₂ : List (Datapoint V)) (st : Time × V),
      (l₁.map fun e => (e.Timestamp, e.Average)) = (l₂.map fun e => (e.Timestamp, e.Average)) →
      l₁.foldl GetLastPoint.step st = l₂.foldl GetLastPoint.step st := by
  induction l₁ with
  | nil =>
    intro l₂ st h
    cases l₂ with
    | nil => rfl
    | cons b l₂ => simp at h
  | cons a l₁ ih =>
    intro l₂ st h
    cases l₂ with
    | nil => simp at h
    | cons b l₂ =>
      simp only [List.map_cons, List.cons.injEq, Prod.mk.injEq] at h
      obtain ⟨⟨hts, hav⟩, htail⟩ := h
      have hstep : GetLastPoint.step st a = GetLastPoint.step st b := by
        simp [GetLastPoint.step, hts, hav]
      rw [List.foldl_cons, List.foldl_cons, hstep]
      exact ih l₂ _ htail

/-- Go `strings.HasPrefix` holds exactly when the string is the prefix followed
by some remainder. -/
theorem HasPrefix_iff (s p : String) : HasPrefix s p = true ↔ ∃ rest : String, s = p ++ rest := by
  constructor
  · intro h
    simp only [HasPrefix, Bool.and_eq_true, decide_eq_true_eq, beq_iff_eq] at h
    refine ⟨⟨s.data.drop p.data.length⟩, ?_⟩
    apply String.ext
    rw [String.data_append, ← h.2, List.length_take, min_eq_left h.1, List.take_append_drop]
  · rintro ⟨rest, rfl⟩
    simp [HasPrefix, String.data_append]

/-! ## Maps -/

theorem GoMap.get?_set_self {V : Type} (m : GoMap V) (k : String) (v : V) :
    (m.set k v).get? k = some v := by
  induction m with
  | nil => simp [GoMap.set, GoMap.get?]
  | cons a m ih =>
    obtain ⟨k', v'⟩ := a
    by_cases h : k' = k
    · simp [GoMap.set, GoMap.get?, h]
    · simp [GoMap.set, GoMap.get?, h, ih]

theorem GoMap.get?_set_ne {V : Type} (m : GoMap V) (k x : String) (v : V) (hx : x ≠ k) :
    (m.set k v).get? x = m.get? x := by
  induction m with
  | nil => simp [GoMap.set, GoMap.get?, Ne.symm hx]
  | cons a m ih =>
    obtain ⟨k', v'⟩ := a
    by_cases h : k' = k
    · subst h
      simp [GoMap.set, GoMap.get?, Ne.symm hx]
    · by_cases h' : k' = x
      · subst h'
        simp [GoMap.set, GoMap.get?, h]
      · simp [GoMap.set, GoMap.get?, h, h', ih]

theorem GoMap.mem_keys_set {V : Type} (m : GoMap V) (k x : String) (v : V)
    (hx : x ∈ (m.set k v).keys) : x = k ∨ x ∈ m.keys := by
  induction m with
  | nil => simpa [GoMap.set, GoMap.keys] using hx
  | cons a m ih =>
    obtain ⟨k', v'⟩ := a
    by_cases h : k' = k
    · subst h
      simp only [GoMap.set, GoMap.keys, if_true, List.map_cons, List.mem_cons] at hx ⊢
      exact Or.inr hx
    · simp only [GoMap.set, GoMap.keys, h, if_false, List.map_cons, List.mem_cons] at hx ⊢
      rcases hx with hx | hx
      · exact Or.inr (Or.inl hx)
      · rcases ih hx with hk | hm
        · exact Or.inl hk
        · exact Or.inr (Or.inr hm)

theorem GoMap.keys_set_of_not_mem {V : Type} (m : GoMap V) (k : String) (v : V)
    (hk : k ∉ m.keys) : (m.set k v).keys = m.keys ++ [k] := by
  induction m with
  | nil => simp [GoMap.set, GoMap.keys]
  | cons a m ih =>
    obtain ⟨k', v'⟩ := a
    simp only [GoMap.keys, List.map_cons, List.mem_cons, not_or] at hk
    have h : ¬ k' = k := fun h => hk.1 h.symm
    have ih' := ih hk.2
    simp only [GoMap.keys] at ih'
    simp [GoMap.set, GoMap.keys, h, ih']

theorem GoMap.get?_eq_none_of_not_mem {V : Type} (m : GoMap V) (k : String)
    (hk : k ∉ m.keys) : m.get? k = none := by
  induction m with
  | nil => rfl
  | cons a m ih =>
    obtain ⟨k', v'⟩ := a
    simp only [GoMap.keys, List.map_cons, List.mem_cons, not_or] at hk
    have h : ¬ k' = k := fun h => hk.1 h.symm
    simp only [GoMap.get?, h, if_false]
    exact ih hk.2

theorem GoMap.not_mem_keys_of_get?_eq_none {V : Type} (m : GoMap V) (k : String)
    (hk : m.get? k = none) : k ∉ m.keys := by
  induction m with
  | nil => simp [GoMap.keys]
  | cons a m ih =>
    obtain ⟨k', v'⟩ := a
    by_cases h : k' = k
    · simp [GoMap.get?, h] at hk
    · simp only [GoMap.get?, h, if_false] at hk
      simp only [GoMap.keys, List.map_cons, List.mem_cons, not_or]
      exact ⟨fun hh => h hh.symm, ih hk⟩

/-! ## The loop of FetchMetrics -/

theorem loop_cons_ok {V : Type} [Zero V] (env : Env V) (cw : CloudWatch) (dim : Dimension)
    (met : String) (rest : List String) (tick : Nat) (st : GoMap V × List String) (v : V)
    (h : GetLastPoint env (env.Now tick) cw dim met = (v, none)) :
    FetchMetrics.loop env cw dim (met :: rest) tick st
      = FetchMetrics.loop env cw dim rest (tick + 1) (st.1.set met v, st.2) := by
  rw [FetchMetrics.loop, h]

theorem loop_cons_err {V : Type} [Zero V] (env : Env V) (cw : CloudWatch) (dim : Dimension)
    (met : String) (rest : List String) (tick : Nat) (st : GoMap V × List String) (v : V)
    (err : GoError) (h : GetLastPoint env (env.Now tick) cw dim met = (v, some err)) :
    FetchMetrics.loop env cw dim (met :: rest) tick st
      = FetchMetrics.loop env cw dim rest (tick + 1) (st.1, st.2 ++ [met ++ ": " ++ err.msg]) := by
  rw [FetchMetrics.loop, h]

/-- The loop adds no key other than the names it ranges over. -/
theorem loop_mem_keys {V : Type} [Zero V] (env : Env V) (cw : CloudWatch) (dim : Dimension)
    (names : List String) :
    ∀ (tick : Nat) (st : GoMap V × List String) (x : String),
      x ∈ (FetchMetrics.loop env cw dim names tick st).1.keys → x ∈ st.1.keys ∨ x ∈ names := by
  induction names with
  | nil => intro tick st x hx; exact Or.inl hx
  | cons met rest ih =>
    intro tick st x hx
    rcases hg : GetLastPoint env (env.Now tick) cw dim met with ⟨v, _ | err⟩
    · rw [loop_cons_ok env cw dim met rest tick st v hg] at hx
      rcases ih _ _ x hx with h | h
      · rcases GoMap.mem_keys_set _ _ _ _ h with h | h
        · exact Or.inr (h ▸ List.mem_cons_self _ _)
        · exact Or.inl h
      · exact Or.inr (List.mem_cons_of_mem _ h)
    · rw [loop_cons_err env cw dim met rest tick st v err hg] at hx
      rcases ih _ _ x hx with h | h
      · exact Or.inl h
      · exact Or.inr (List.mem_cons_of_mem _ h)

/-- The loop leaves the entry of a name it does not range over as it was. -/
theorem loop_get?_of_not_mem {V : Type} [Zero V] (env : Env V) (cw : CloudWatch)
    (dim : Dimension) (names : List String) (x : String) (hx : x ∉ names) :
    ∀ (tick : Nat) (st : GoMap V × List String),
      (FetchMetrics.loop env cw dim names tick st).1.get? x = st.1.get? x := by
  induction names with
  | nil => intro tick st; rfl
  | cons met rest ih =>
    intro tick st
    have hne : x ≠ met := fun h => hx (h ▸ List.mem_cons_self _ _)
    have hrest : x ∉ rest := fun h => hx (List.mem_cons_of_mem _ h)
    rcases hg : GetLastPoint env (env.Now tick) cw dim met with ⟨v, _ | err⟩
    · rw [loop_cons_ok env cw dim met rest tick st v hg, ih hrest]
      exact GoMap.get?_set_ne _ _ _ _ hne
    · rw [loop_cons_err env cw dim met rest tick st v err hg, ih hrest]

/-- The entry of the `i`-th name after the loop: the value `GetLastPoint` returned
for it at the `i`-th clock reading if the error was nil, the previous entry
otherwise. -/
theorem loop_get?_at {V : Type} [Zero V] (env : Env V) (cw : CloudWatch) (dim : Dimension)
    (names : List String) (hnodup : names.Nodup) :
    ∀ (tick : Nat) (st : GoMap V × List String) (i : Nat) (m : String), names[i]? = some m →
      ((GetLastPoint env (env.Now (tick + i)) cw dim m).2 = none →
        (FetchMetrics.loop env cw dim names tick st).1.get? m
          = some (GetLastPoint env (env.Now (tick + i)) cw dim m).1) ∧
      ((GetLastPoint env (env.Now (tick + i)) cw dim m).2 ≠ none →
        (FetchMetrics.loop env cw dim names tick st).1.get? m = st.1.get? m) := by
  induction names with
  | nil => intro tick st i m h; simp at h
  | cons met rest ih =>
    intro tick st i m h
    obtain ⟨hmet, hrest⟩ := List.nodup_cons.mp hnodup
    cases i with
    | zero =>
      simp only [List.getElem?_cons_zero, Option.some.injEq] at h
      subst h
      simp only [Nat.add_zero]
      rcases hg : GetLastPoint env (env.Now tick) cw dim met with ⟨v, _ | err⟩
      · rw [loop_cons_ok env cw dim met rest tick st v hg,
          loop_get?_of_not_mem env cw dim rest met hmet]
        exact ⟨fun _ => GoMap.get?_set_self _ _ _, fun h => absurd rfl h⟩
      · rw [loop_cons_err env cw dim met rest tick st v err hg,
          loop_get?_of_not_mem env cw dim rest met hmet]
        exact ⟨fun h => by simp at h, fun _ => rfl⟩
    | succ i =>
      simp only [List.getElem?_cons_succ] at h
      have hm : m ∈ rest := List.getElem?_mem h
      have hne : m ≠ met := fun hh => hmet (hh ▸ hm)
      have hidx : tick + (i + 1) = tick + 1 + i := by omega
      rw [hidx]
      rcases hg : GetLastPoint env (env.Now tick) cw dim met with ⟨v, _ | err⟩
      · rw [loop_cons_ok env cw dim met rest tick st v hg]
        have := ih hrest (tick + 1) (st.1.set met v, st.2) i m h
        rw [GoMap.get?_set_ne _ _ _ _ hne] at this
        exact this
      · rw [loop_cons_err env cw dim met rest tick st v err hg]
        exact ih hrest (tick + 1) (st.1, st.2 ++ [met ++ ": " ++ err.msg]) i m h

/-- When every call of `GetLastPoint` returns a nil error, the loop adds the
names it ranges over, in order. -/
theorem loop_keys_all_ok {V : Type} [Zero V] (env : Env V) (cw : CloudWatch) (dim : Dimension)
    (names : List String) (hnodup : names.Nodup) :
    ∀ (tick : Nat) (st : GoMap V × List String), (∀ x ∈ names, x ∉ st.1.keys) →
      (∀ i m, names[i]? = some m → (GetLastPoint env (env.Now (tick + i)) cw dim m).2 = none) →
      (FetchMetrics.loop env cw dim names tick st).1.keys = st.1.keys ++ names := by
  induction names with
  | nil => intro tick st _ _; simp [FetchMetrics.loop]
  | cons met rest ih =>
    intro tick st hfresh hok
    obtain ⟨hmet, hrest⟩ := List.nodup_cons.mp hnodup
    have h0 := hok 0 met (List.getElem?_cons_zero ..)
    rcases hg : GetLastPoint env (env.Now tick) cw dim met with ⟨v, _ | err⟩
    · rw [loop_cons_ok env cw dim met rest tick st v hg, ih hrest]
      · rw [GoMap.keys_set_of_not_mem _ _ _ (hfresh met (List.mem_cons_self _ _))]
        simp
      · intro x hx hmem
        rcases GoMap.mem_keys_set _ _ _ _ hmem with h | h
        · exact hmet (h ▸ hx)
        · exact hfresh x (List.mem_cons_of_mem _ hx) h
      · intro i m h
        have := hok (i + 1) m (by simpa using h)
        have hidx : tick + (i + 1) = tick + 1 + i := by omega
        rw [hidx] at this
        exact this
    · simp only [Nat.add_zero] at h0
      rw [hg] at h0
      simp at h0

/-- Two environments that agree on every query but those for metric `m`, run
from states that agree on every key but `m`, end in states that agree on every
key but `m`. -/
theorem loop_agree_off {V : Type} [Zero V] (env₁ env₂ : Env V) (cw : CloudWatch)
    (dim : Dimension) (m : String) (hnow : env₁.Now = env₂.Now)
    (hgms : ∀ req, req.MetricName ≠ m →
      env₁.GetMetricStatistics cw req = env₂.GetMetricStatistics cw req)
    (names : List String) :
    ∀ (tick : Nat) (st₁ st₂ : GoMap V × List String),
      (∀ k, k ≠ m → st₁.1.get? k = st₂.1.get? k) →
      ∀ k, k ≠ m → (FetchMetrics.loop env₁ cw dim names tick st₁).1.get? k
        = (FetchMetrics.loop env₂ cw dim names tick st₂).1.get? k := by
  induction names with
  | nil => intro tick st₁ st₂ h k hk; exact h k hk
  | cons met rest ih =>
    intro tick st₁ st₂ h k hk
    by_cases hmet : met = m
    · subst hmet
      have hset : ∀ (s : GoMap V) (v : V) (x : String), x ≠ met →
          (s.set met v).get? x = s.get? x := fun s v x hx => GoMap.get?_set_ne s met x v hx
      rcases hg₁ : GetLastPoint env₁ (env₁.Now tick) cw dim met with ⟨v₁, _ | e₁⟩ <;>
      rcases hg₂ : GetLastPoint env₂ (env₂.Now tick) cw dim met with ⟨v₂, _ | e₂⟩
      · rw [loop_cons_ok env₁ cw dim met rest tick st₁ v₁ hg₁,
          loop_cons_ok env₂ cw dim met rest tick st₂ v₂ hg₂]
        exact ih _ _ _ (fun x hx => by simp only [hset _ _ x hx]; exact h x hx) k hk
      · rw [loop_cons_ok env₁ cw dim met rest tick st₁ v₁ hg₁,
          loop_cons_err env₂ cw dim met rest tick st₂ v₂ e₂ hg₂]
        exact ih _ _ _ (fun x hx => by simp only [hset _ _ x hx]; exact h x hx) k hk
      · rw [loop_cons_err env₁ cw dim met rest tick st₁ v₁ e₁ hg₁,
          loop_cons_ok env₂ cw dim met rest tick st₂ v₂ hg₂]
        exact ih _ _ _ (fun x hx => by simp only [hset _ _ x hx]; exact h x hx) k hk
      · rw [loop_cons_err env₁ cw dim met rest tick st₁ v₁ e₁ hg₁,
          loop_cons_err env₂ cw dim met rest tick st₂ v₂ e₂ hg₂]
        refine ih (tick + 1) _ _ ?_ k hk
        exact h
    · have hsame : GetLastPoint env₁ (env₁.Now tick) cw dim met
          = GetLastPoint env₂ (env₂.Now tick) cw dim met := by
        have hreq := hgms (GetLastPoint.request (env₁.Now tick) dim met) hmet
        simp only [GetLastPoint, ← hnow, hreq]
      rcases hg₂ : GetLastPoint env₂ (env₂.Now tick) cw dim met with ⟨v, _ | err⟩
      · rw [loop_cons_ok env₁ cw dim met rest tick st₁ v (hsame.trans hg₂),
          loop_cons_ok env₂ cw dim met rest tick st₂ v hg₂]
        refine ih _ _ _ (fun x hx => ?_) k hk
        by_cases hxm : x = met
        · subst hxm
          simp only [GoMap.get?_set_self]
        · simp only [GoMap.get?_set_ne _ _ _ _ hxm]
          exact h x hx
      · rw [loop_cons_err env₁ cw dim met rest tick st₁ v err (hsame.trans hg₂),
          loop_cons_err env₂ cw dim met rest tick st₂ v err hg₂]
        refine ih (tick + 1) _ _ ?_ k hk
        exact h

theorem metricNames_nodup : metricNames.Nodup := by
  decide

/-- What `FetchMetrics` returns once client setup has succeeded. -/
theorem FetchMetrics_ok {V : Type} [Zero V] (env : Env V) (p : SQSPlugin) (auth : Auth)
    (cw : CloudWatch)
    (hauth : env.GetAuth p.AccessKeyId p.SecretAccessKey "" (env.Now 0) = .ok auth)
    (hcw : env.NewCloudWatch auth (env.CloudWatchServicepoint p.Region) = .ok cw) :
    SQSPlugin.FetchMetrics env p =
      { stat := some (FetchMetrics.loop env cw { Name := "QueueName", Value := p.QueueName }
          metricNames 1 ([], [])).1
        err := none
        log := (FetchMetrics.loop env cw { Name := "QueueName", Value := p.QueueName }
          metricNames 1 ([], [])).2 } := by
  simp [SQSPlugin.FetchMetrics, hauth, hcw]

/-! ## Concrete inputs -/

/-- A client handle. -/
def cw₀ : CloudWatch :=
  { Service := { Endpoint := "", Signer := 0 }, Auth := { AccessKey := "", SecretKey := "" } }

/-- The dimension of a queue named `q`. -/
def dim₀ : Dimension := { Name := "QueueName", Value := "q" }

/-- A plugin configuration. -/
def plugin₀ : SQSPlugin :=
  { Region := "r", AccessKeyId := "a", SecretAccessKey := "s", QueueName := "q" }

/-- A clock: the `k`-th reading is `k` seconds after instant `10 ^ 18`. -/
def clock₀ (k : Nat) : Time := 1000000000000000000 + k * Second

/-- The data points `[(t=100, v=5.0), (t=160, v=7.0), (t=130, v=6.0)]`. -/
def points₁ : List (Datapoint ℚ) :=
  [Datapoint.ofAverage 100 5, Datapoint.ofAverage 160 7, Datapoint.ofAverage 130 6]

/-- Two data points with distinct timestamps, both before the Unix epoch. -/
def pointsBeforeEpoch : List (Datapoint ℚ) :=
  [Datapoint.ofAverage (-200) 5, Datapoint.ofAverage (-100) 7]

/-- Two data points sharing one timestamp before the Unix epoch. -/
def pointsTiedBeforeEpoch : List (Datapoint ℚ) :=
  [Datapoint.ofAverage (-100) 5, Datapoint.ofAverage (-100) 7]

/-- Three data points, the first and the last sharing the latest timestamp. -/
def pointsTied : List (Datapoint ℚ) :=
  [Datapoint.ofAverage 160 5, Datapoint.ofAverage 100 6, Datapoint.ofAverage 160 7]

/-- The points of `points₁` with the fields the program does not read filled in. -/
def points₁Full : List (Datapoint ℚ) :=
  [ { Average := 5, Maximum := 9, Minimum := 1, SampleCount := 4, Sum := 20, Timestamp := 100,
      Unit := "Count" },
    { Average := 7, Maximum := 8, Minimum := 2, SampleCount := 3, Sum := 21, Timestamp := 160,
      Unit := "Count" },
    { Average := 6, Maximum := 6, Minimum := 6, SampleCount := 1, Sum := 6, Timestamp := 130,
      Unit := "Bytes" } ]

/-- Environment in which every query returns the data points `dps`. -/
def envAll (dps : List (Datapoint ℚ)) : Env ℚ := Env.ofOutcomes clock₀ fun _ => .ok dps

/-- Environment in which one query fails, one returns no data point and the
other six return the data points `points₁`. -/
def envMixed : Env ℚ :=
  Env.ofOutcomes clock₀ fun m =>
    if m = "SentMessageSize" then .error (errorsNew "timeout")
    else if m = "NumberOfEmptyReceives" then .ok []
    else .ok points₁

/-- The environment `envMixed` with the query for `SentMessageSize` succeeding. -/
def envMixedRepaired : Env ℚ :=
  Env.ofOutcomes clock₀ fun m =>
    if m = "NumberOfEmptyReceives" then .ok []
    else .ok points₁

/-! ## Claims about GetLastPoint -/

/-- C1, as stated, fails: for the two points `(t=-200, v=5)`, `(t=-100, v=7)`,
which have distinct timestamps, the point with the maximum timestamp has value
`7` but `GetLastPoint` returns `0` with a nil error. -/
theorem C1_counterexample :
    pointsBeforeEpoch ≠ [] ∧
    (pointsBeforeEpoch.map fun e => e.Timestamp).Nodup ∧
    Datapoint.ofAverage (-100) (7 : ℚ) ∈ pointsBeforeEpoch ∧
    (∀ e ∈ pointsBeforeEpoch, e.Timestamp ≤ (Datapoint.ofAverage (-100) (7 : ℚ)).Timestamp) ∧
    GetLastPoint (envAll pointsBeforeEpoch) (clock₀ 1) cw₀ dim₀ "NumberOfMessagesSent"
      = (0, none) ∧
    GetLastPoint (envAll pointsBeforeEpoch) (clock₀ 1) cw₀ dim₀ "NumberOfMessagesSent"
      ≠ ((Datapoint.ofAverage (-100) (7 : ℚ)).Average, none) := by
  decide

/-- C1 (amended): when the query succeeds with a non-empty list of data points
whose timestamps are pairwise distinct and at least one of which is at or after
the Unix epoch, the list has a point of maximum timestamp and `GetLastPoint`
returns the value of that point with a nil error. -/
theorem C1_GetLastPoint_distinct {V : Type} [Zero V] (env : Env V) (now : Time)
    (cw : CloudWatch) (dim : Dimension) (m : String) (resp : GetMetricStatisticsResponse V)
    (hq : env.GetMetricStatistics cw (GetLastPoint.request now dim m) = .ok resp)
    (hne : resp.GetMetricStatisticsResult.Datapoints ≠ [])
    (hnodup : (resp.GetMetricStatisticsResult.Datapoints.map fun e => e.Timestamp).Nodup)
    (hepoch : ∃ e ∈ resp.GetMetricStatisticsResult.Datapoints, timeUnix 0 0 ≤ e.Timestamp) :
    (∃ d ∈ resp.GetMetricStatisticsResult.Datapoints,
      ∀ e ∈ resp.GetMetricStatisticsResult.Datapoints, e.Timestamp ≤ d.Timestamp) ∧
    ∀ d ∈ resp.GetMetricStatisticsResult.Datapoints,
      (∀ e ∈ resp.GetMetricStatisticsResult.Datapoints, e.Timestamp ≤ d.Timestamp) →
      GetLastPoint env now cw dim m = (d.Average, none) := by
  constructor
  · obtain ⟨pre, d, post, hsplit, hpre, hpost⟩ := exists_last_latest _ hne
    refine ⟨d, by rw [hsplit]; simp, ?_⟩
    intro e he
    rw [hsplit] at he
    rcases List.mem_append.mp he with he | he
    · exact hpre e he
    · rcases List.mem_cons.mp he with rfl | he
      · exact le_refl _
      · exact le_of_lt (hpost e he)
  · intro d hd hmax
    obtain ⟨pre, post, hsplit, hpre, hpost⟩ := split_of_nodup _ hnodup d hd hmax
    obtain ⟨e, he, hge⟩ := hepoch
    rw [GetLastPoint_ok env now cw dim m resp hq hne, GetLastPoint.scan, hsplit,
      foldl_step_latest pre post d _ (le_trans hge (hmax e he)) hpre hpost]

/-- Witness of C1 (amended): `[(t=100, v=5.0), (t=160, v=7.0), (t=130, v=6.0)]`
gives `7.0`. -/
theorem C1_GetLastPoint_distinct_witness :
    GetLastPoint (envAll points₁) (clock₀ 1) cw₀ dim₀ "NumberOfMessagesSent" = (7, none) :=
  (C1_GetLastPoint_distinct (envAll points₁) (clock₀ 1) cw₀ dim₀ "NumberOfMessagesSent"
    { GetMetricStatisticsResult := { Datapoints := points₁ } } rfl (by decide) (by decide)
    ⟨Datapoint.ofAverage 160 7, by decide, by decide⟩).2
    (Datapoint.ofAverage 160 7) (by decide) (by decide)

/-- C7, as stated, fails: in `[(t=-100, v=5), (t=-100, v=7)]` both points share
the latest timestamp and the one that comes last has value `7`, but
`GetLastPoint` returns `0` with a nil error. -/
theorem C7_counterexample :
    pointsTiedBeforeEpoch
      = [Datapoint.ofAverage (-100) 5] ++ Datapoint.ofAverage (-100) 7 :: [] ∧
    (∀ e ∈ pointsTiedBeforeEpoch, e.Timestamp ≤ (Datapoint.ofAverage (-100) (7 : ℚ)).Timestamp) ∧
    (Datapoint.ofAverage (-100) (5 : ℚ)).Timestamp
      = (Datapoint.ofAverage (-100) (7 : ℚ)).Timestamp ∧
    GetLastPoint (envAll pointsTiedBeforeEpoch) (clock₀ 1) cw₀ dim₀ "NumberOfMessagesSent"
      = (0, none) ∧
    GetLastPoint (envAll pointsTiedBeforeEpoch) (clock₀ 1) cw₀ dim₀ "NumberOfMessagesSent"
      ≠ ((Datapoint.ofAverage (-100) (7 : ℚ)).Average, none) := by
  decide

/-- C7 (amended): when the query succeeds with data points `pre ++ d :: post`
where no point has a later timestamp than `d`, some point of `pre` shares the
timestamp of `d`, every point of `post` is strictly earlier (so `d` is the last,
in response order, of several points sharing the latest timestamp), and that
timestamp is at or after the Unix epoch, `GetLastPoint` returns the value of `d`
with a nil error. -/
theorem C7_GetLastPoint_tie_last {V : Type} [Zero V] (env : Env V) (now : Time)
    (cw : CloudWatch) (dim : Dimension) (m : String) (resp : GetMetricStatisticsResponse V)
    (pre post : List (Datapoint V)) (d : Datapoint V)
    (hq : env.GetMetricStatistics cw (GetLastPoint.request now dim m) = .ok resp)
    (hsplit : resp.GetMetricStatisticsResult.Datapoints = pre ++ d :: post)
    (hpre : ∀ e ∈ pre, e.Timestamp ≤ d.Timestamp)
    (_htie : ∃ e ∈ pre, e.Timestamp = d.Timestamp)
    (hpost : ∀ e ∈ post, e.Timestamp < d.Timestamp)
    (hepoch : timeUnix 0 0 ≤ d.Timestamp) :
    GetLastPoint env now cw dim m = (d.Average, none) := by
  have hne : resp.GetMetricStatisticsResult.Datapoints ≠ [] := by rw [hsplit]; simp
  rw [GetLastPoint_ok env now cw dim m resp hq hne, GetLastPoint.scan, hsplit,
    foldl_step_latest pre post d _ hepoch hpre hpost]

/-- Witness of C7 (amended): of `[(t=160, v=5), (t=100, v=6), (t=160, v=7)]` the
value returned is `7`. -/
theorem C7_GetLastPoint_tie_last_witness :
    GetLastPoint (envAll pointsTied) (clock₀ 1) cw₀ dim₀ "SentMessageSize" = (7, none) :=
  C7_GetLastPoint_tie_last (envAll pointsTied) (clock₀ 1) cw₀ dim₀ "SentMessageSize"
    { GetMetricStatisticsResult := { Datapoints := pointsTied } }
    [Datapoint.ofAverage 160 5, Datapoint.ofAverage 100 6] [] (Datapoint.ofAverage 160 7)
    rfl rfl (by decide) ⟨Datapoint.ofAverage 160 5, by decide, by decide⟩ (by decide) (by decide)

/-- C9: the scan starts from the Unix epoch. When the query succeeds with a
non-empty list of data points: (1) if at least one point has a timestamp at or
after the Unix epoch, then for the last point `d`, in response order, among those
with the maximum timestamp, `GetLastPoint` returns the value of `d` with a nil
error; (2) if every timestamp is strictly before the Unix epoch, the loop leaves
its state at `(time.Unix(0, 0), 0)`, every point being skipped, and
`GetLastPoint` returns `0` with a nil error. -/
theorem C9_GetLastPoint_epoch {V : Type} [Zero V] (env : Env V) (now : Time)
    (cw : CloudWatch) (dim : Dimension) (m : String) (resp : GetMetricStatisticsResponse V)
    (hq : env.GetMetricStatistics cw (GetLastPoint.request now dim m) = .ok resp)
    (hne : resp.GetMetricStatisticsResult.Datapoints ≠ []) :
    ((∃ e ∈ resp.GetMetricStatisticsResult.Datapoints, timeUnix 0 0 ≤ e.Timestamp) →
      ∀ (pre post : List (Datapoint V)) (d : Datapoint V),
        resp.GetMetricStatisticsResult.Datapoints = pre ++ d :: post →
        (∀ e ∈ pre, e.Timestamp ≤ d.Timestamp) → (∀ e ∈ post, e.Timestamp < d.Timestamp) →
        GetLastPoint env now cw dim m = (d.Average, none)) ∧
    ((∀ e ∈ resp.GetMetricStatisticsResult.Datapoints, e.Timestamp < timeUnix 0 0) →
      GetLastPoint.scan resp.GetMetricStatisticsResult.Datapoints = (timeUnix 0 0, 0) ∧
      (∀ st : Time × V, ∀ e ∈ resp.GetMetricStatisticsResult.Datapoints,
        st.1 = timeUnix 0 0 → GetLastPoint.step st e = st) ∧
      GetLastPoint env now cw dim m = (0, none)) := by
  constructor
  · rintro ⟨e, he, hge⟩ pre post d hsplit hpre hpost
    have hed : e.Timestamp ≤ d.Timestamp := by
      rw [hsplit] at he
      rcases List.mem_append.mp he with he | he
      · exact hpre e he
      · rcases List.mem_cons.mp he with rfl | he
        · exact le_refl _
        · exact le_of_lt (hpost e he)
    rw [GetLastPoint_ok env now cw dim m resp hq hne, GetLastPoint.scan, hsplit,
      foldl_step_latest pre post d _ (le_trans hge hed) hpre hpost]
  · intro hall
    have hscan :
        GetLastPoint.scan resp.GetMetricStatisticsResult.Datapoints = (timeUnix 0 0, 0) :=
      foldl_step_skip _ (timeUnix 0 0, 0) hall
    refine ⟨hscan, ?_, ?_⟩
    · intro st e he hst
      exact step_skip st e (by rw [hst]; exact hall e he)
    · rw [GetLastPoint_ok env now cw dim m resp hq hne, hscan]

/-- Witness of C9: `[(t=160, v=5), (t=100, v=6), (t=160, v=7)]` gives `7`, and
`[(t=-200, v=5), (t=-100, v=7)]` gives `0` with a nil error. -/
theorem C9_GetLastPoint_epoch_witness :
    GetLastPoint (envAll pointsTied) (clock₀ 1) cw₀ dim₀ "SentMessageSize" = (7, none) ∧
    GetLastPoint (envAll pointsBeforeEpoch) (clock₀ 1) cw₀ dim₀ "SentMessageSize"
      = (0, none) :=
  ⟨(C9_GetLastPoint_epoch (envAll pointsTied) (clock₀ 1) cw₀ dim₀ "SentMessageSize"
      { GetMetricStatisticsResult := { Datapoints := pointsTied } } rfl (by decide)).1
      ⟨Datapoint.ofAverage 160 5, by decide, by decide⟩
      [Datapoint.ofAverage 160 5, Datapoint.ofAverage 100 6] [] (Datapoint.ofAverage 160 7)
      rfl (by decide) (by decide),
    ((C9_GetLastPoint_epoch (envAll pointsBeforeEpoch) (clock₀ 1) cw₀ dim₀ "SentMessageSize"
      { GetMetricStatisticsResult := { Datapoints := pointsBeforeEpoch } } rfl (by decide)).2
      (by decide)).2.2⟩

/-- C10: for every metric name, if two queries succeed with responses whose data
points agree, in order, on `Timestamp` and `Average`, then `GetLastPoint` returns
the same value and the same error for both, whatever the other fields hold. -/
theorem C10_GetLastPoint_reads_timestamp_average {V : Type} [Zero V] (env₁ env₂ : Env V)
    (now₁ now₂ : Time) (cw₁ cw₂ : CloudWatch) (dim₁ dim₂ : Dimension) (m : String)
    (resp₁ resp₂ : GetMetricStatisticsResponse V)
    (hq₁ : env₁.GetMetricStatistics cw₁ (GetLastPoint.request now₁ dim₁ m) = .ok resp₁)
    (hq₂ : env₂.GetMetricStatistics cw₂ (GetLastPoint.request now₂ dim₂ m) = .ok resp₂)
    (hagree :
      (resp₁.GetMetricStatisticsResult.Datapoints.map fun e => (e.Timestamp, e.Average))
        = (resp₂.GetMetricStatisticsResult.Datapoints.map fun e => (e.Timestamp, e.Average))) :
    GetLastPoint env₁ now₁ cw₁ dim₁ m = GetLastPoint env₂ now₂ cw₂ dim₂ m := by
  have hlen : resp₁.GetMetricStatisticsResult.Datapoints.length
      = resp₂.GetMetricStatisticsResult.Datapoints.length := by
    simpa using congrArg List.length hagree
  have hscan : GetLastPoint.scan resp₁.GetMetricStatisticsResult.Datapoints
      = GetLastPoint.scan resp₂.GetMetricStatisticsResult.Datapoints :=
    foldl_step_congr _ _ _ hagree
  simp only [GetLastPoint, hq₁, hq₂]
  rw [hlen, hscan]

/-- Witness of C10: for the metric `NumberOfMessagesSent`, for which `Sum` is
requested, a response with `Sum`, `Minimum`, `Maximum`, `SampleCount` and `Unit`
filled in gives the same result as one with those fields zero. -/
theorem C10_GetLastPoint_reads_timestamp_average_witness :
    GetLastPoint.statistics "NumberOfMessagesSent" = ["Sum"] ∧
    points₁Full ≠ points₁ ∧
    GetLastPoint (envAll points₁Full) (clock₀ 1) cw₀ dim₀ "NumberOfMessagesSent"
      = GetLastPoint (envAll points₁) (clock₀ 2) cw₀ dim₀ "NumberOfMessagesSent" :=
  ⟨by decide, by decide,
    C10_GetLastPoint_reads_timestamp_average (envAll points₁Full) (envAll points₁)
      (clock₀ 1) (clock₀ 2) cw₀ cw₀ dim₀ dim₀ "NumberOfMessagesSent"
      { GetMetricStatisticsResult := { Datapoints := points₁Full } }
      { GetMetricStatisticsResult := { Datapoints := points₁ } } rfl rfl (by decide)⟩

/-- C2: for every metric name, the `Statistics` of the request `GetLastPoint`
builds is `["Average"]` when the name is `"Approximate"` followed by some
remainder and `["Sum"]` otherwise; the request is the one `GetLastPoint` sends,
its result being determined by the outcome of that request. -/
theorem C2_statistics_of_name (now : Time) (dim : Dimension) (m : String) :
    ((∃ rest : String, m = "Approximate" ++ rest) →
      (GetLastPoint.request now dim m).Statistics = ["Average"]) ∧
    ((¬ ∃ rest : String, m = "Approximate" ++ rest) →
      (GetLastPoint.request now dim m).Statistics = ["Sum"]) ∧
    (∀ (V : Type) [Zero V] (env₁ env₂ : Env V) (cw : CloudWatch),
      env₁.GetMetricStatistics cw (GetLastPoint.request now dim m)
        = env₂.GetMetricStatistics cw (GetLastPoint.request now dim m) →
      GetLastPoint env₁ now cw dim m = GetLastPoint env₂ now cw dim m) := by
  refine ⟨?_, ?_, ?_⟩
  · intro h
    have hp : HasPrefix m "Approximate" = true := (HasPrefix_iff m "Approximate").mpr h
    simp [GetLastPoint.request, GetLastPoint.statistics, hp]
  · intro h
    have hp : HasPrefix m "Approximate" = false := by
      cases hb : HasPrefix m "Approximate" with
      | false => rfl
      | true => exact absurd ((HasPrefix_iff m "Approximate").mp hb) h
    simp [GetLastPoint.request, GetLastPoint.statistics, hp]
  · intro V _ env₁ env₂ cw h
    simp [GetLastPoint, h]

/-- Witness of C2: `ApproximateNumberOfMessagesVisible` asks for `Average`,
`NumberOfMessagesSent` and `Approx` ask for `Sum`. -/
theorem C2_statistics_of_name_witness :
    (GetLastPoint.request (clock₀ 1) dim₀ "ApproximateNumberOfMessagesVisible").Statistics
      = ["Average"] ∧
    (GetLastPoint.request (clock₀ 1) dim₀ "NumberOfMessagesSent").Statistics = ["Sum"] ∧
    (GetLastPoint.request (clock₀ 1) dim₀ "Approx").Statistics = ["Sum"] :=
  ⟨(C2_statistics_of_name (clock₀ 1) dim₀ "ApproximateNumberOfMessagesVisible").1
      ⟨"NumberOfMessagesVisible", by decide⟩,
    (C2_statistics_of_name (clock₀ 1) dim₀ "NumberOfMessagesSent").2.1
      (fun h => absurd ((HasPrefix_iff _ _).mpr h) (by decide)),
    (C2_statistics_of_name (clock₀ 1) dim₀ "Approx").2.1
      (fun h => absurd ((HasPrefix_iff _ _).mpr h) (by decide))⟩

/-- C8: every metric name in a graph of the schema `GraphDefinition` returns is
one of the names `FetchMetrics` ranges over. -/
theorem C8_graphdef_names_fetched (p : SQSPlugin) :
    ∀ g ∈ p.GraphDefinition, ∀ x ∈ g.2.Metrics, x.Name ∈ metricNames := by
  simp only [SQSPlugin.GraphDefinition]
  decide

/-- Witness of C8: the metric `SentMessageSize` of the graph `sqs.MessageSize`
is a name `FetchMetrics` ranges over. -/
theorem C8_graphdef_names_fetched_witness :
    (Metrics.mk "SentMessageSize" "SentMessageSize").Name ∈ metricNames :=
  C8_graphdef_names_fetched plugin₀
    ("sqs.MessageSize",
      { Label := "SQS Message Size"
        Unit := "bytes"
        Metrics := [ { Name := "SentMessageSize", Label := "SentMessageSize" } ] })
    (by decide) { Name := "SentMessageSize", Label := "SentMessageSize" } (by decide)

/-! ## Claims about FetchMetrics -/

/-- C6: `FetchMetrics` returns an error exactly when `GetAuth` fails or
`NewCloudWatch` fails, and then the map it returns is nil; when both succeed it
returns a map that is not nil together with a nil error, whatever the queries
return. -/
theorem C6_FetchMetrics_error_iff_setup_fails {V : Type} [Zero V] (env : Env V)
    (p : SQSPlugin) :
    ((SQSPlugin.FetchMetrics env p).err ≠ none ↔
      ((∃ e, env.GetAuth p.AccessKeyId p.SecretAccessKey "" (env.Now 0) = .error e) ∨
        ∃ auth e, env.GetAuth p.AccessKeyId p.SecretAccessKey "" (env.Now 0) = .ok auth ∧
          env.NewCloudWatch auth (env.CloudWatchServicepoint p.Region) = .error e)) ∧
    ((SQSPlugin.FetchMetrics env p).err ≠ none → (SQSPlugin.FetchMetrics env p).stat = none) ∧
    (∀ auth cw, env.GetAuth p.AccessKeyId p.SecretAccessKey "" (env.Now 0) = .ok auth →
      env.NewCloudWatch auth (env.CloudWatchServicepoint p.Region) = .ok cw →
      (∃ s, (SQSPlugin.FetchMetrics env p).stat = some s) ∧
        (SQSPlugin.FetchMetrics env p).err = none) := by
  rcases hauth : env.GetAuth p.AccessKeyId p.SecretAccessKey "" (env.Now 0) with e | auth
  · refine ⟨?_, ?_, ?_⟩
    · simp [SQSPlugin.FetchMetrics, hauth]
    · simp [SQSPlugin.FetchMetrics, hauth]
    · intro auth cw h; simp at h
  · rcases hcw : env.NewCloudWatch auth (env.CloudWatchServicepoint p.Region) with e | cw
    · refine ⟨?_, ?_, ?_⟩
      · simp [SQSPlugin.FetchMetrics, hauth, hcw]
      · simp [SQSPlugin.FetchMetrics, hauth, hcw]
      · intro auth' cw' h h'
        simp only [Except.ok.injEq] at h
        subst h
        rw [hcw] at h'
        simp at h'
    · refine ⟨?_, ?_, ?_⟩
      · simp [SQSPlugin.FetchMetrics, hauth, hcw]
      · simp [SQSPlugin.FetchMetrics, hauth, hcw]
      · intro auth' cw' _ _
        simp [SQSPlugin.FetchMetrics, hauth, hcw]

/-- Witness of C6: when `GetAuth` fails the error is returned with a nil map;
in `envMixed`, where setup succeeds and two queries give no value, a map and a
nil error are returned. -/
theorem C6_FetchMetrics_error_iff_setup_fails_witness :
    (SQSPlugin.FetchMetrics (Env.authFails (errorsNew "denied") : Env ℚ) plugin₀).stat = none ∧
    ((∃ s, (SQSPlugin.FetchMetrics envMixed plugin₀).stat = some s) ∧
      (SQSPlugin.FetchMetrics envMixed plugin₀).err = none) :=
  ⟨(C6_FetchMetrics_error_iff_setup_fails (Env.authFails (errorsNew "denied") : Env ℚ)
      plugin₀).2.1
      ((C6_FetchMetrics_error_iff_setup_fails (Env.authFails (errorsNew "denied") : Env ℚ)
        plugin₀).1.mpr (Or.inl ⟨errorsNew "denied", rfl⟩)),
    (C6_FetchMetrics_error_iff_setup_fails envMixed plugin₀).2.2
      { AccessKey := "a", SecretKey := "s" }
      { Service := { Endpoint := "r", Signer := 0 },
        Auth := { AccessKey := "a", SecretKey := "s" } } rfl rfl⟩

/-- C5: whatever the environment does, every key of the map `FetchMetrics`
returns is one of the 8 fixed metric names. -/
theorem C5_FetchMetrics_keys_fixed {V : Type} [Zero V] (env : Env V) (p : SQSPlugin)
    (s : GoMap V) (hs : (SQSPlugin.FetchMetrics env p).stat = some s) :
    ∀ k ∈ s.keys, k ∈
      [ "NumberOfMessagesSent", "SentMessageSize", "NumberOfMessagesReceived",
        "NumberOfEmptyReceives", "NumberOfMessagesDeleted",
        "ApproximateNumberOfMessagesDelayed", "ApproximateNumberOfMessagesVisible",
        "ApproximateNumberOfMessagesNotVisible" ] := by
  intro k hk
  rcases hauth : env.GetAuth p.AccessKeyId p.SecretAccessKey "" (env.Now 0) with e | auth
  · simp [SQSPlugin.FetchMetrics, hauth] at hs
  · rcases hcw : env.NewCloudWatch auth (env.CloudWatchServicepoint p.Region) with e | cw
    · simp [SQSPlugin.FetchMetrics, hauth, hcw] at hs
    · rw [FetchMetrics_ok env p auth cw hauth hcw] at hs
      simp only [Option.some.injEq] at hs
      subst hs
      rcases loop_mem_keys env cw _ metricNames 1 ([], []) k hk with h | h
      · simp [GoMap.keys] at h
      · exact h

/-- Witness of C5: in `envMixed` the map holds six keys, each a fixed name. -/
theorem C5_FetchMetrics_keys_fixed_witness :
    (SQSPlugin.FetchMetrics envMixed plugin₀).stat =
      some [ ("NumberOfMessagesSent", 7), ("NumberOfMessagesReceived", 7),
        ("NumberOfMessagesDeleted", 7), ("ApproximateNumberOfMessagesDelayed", 7),
        ("ApproximateNumberOfMessagesVisible", 7),
        ("ApproximateNumberOfMessagesNotVisible", 7) ] ∧
    ∀ k ∈ [ "NumberOfMessagesSent", "NumberOfMessagesReceived", "NumberOfMessagesDeleted",
        "ApproximateNumberOfMessagesDelayed", "ApproximateNumberOfMessagesVisible",
        "ApproximateNumberOfMessagesNotVisible" ],
      k ∈ [ "NumberOfMessagesSent", "SentMessageSize", "NumberOfMessagesReceived",
        "NumberOfEmptyReceives", "NumberOfMessagesDeleted",
        "ApproximateNumberOfMessagesDelayed", "ApproximateNumberOfMessagesVisible",
        "ApproximateNumberOfMessagesNotVisible" ] :=
  ⟨by decide,
    C5_FetchMetrics_keys_fixed envMixed plugin₀
      [ ("NumberOfMessagesSent", 7), ("NumberOfMessagesReceived", 7),
        ("NumberOfMessagesDeleted", 7), ("ApproximateNumberOfMessagesDelayed", 7),
        ("ApproximateNumberOfMessagesVisible", 7),
        ("ApproximateNumberOfMessagesNotVisible", 7) ]
      (by decide)⟩

/-- C3: once client setup has succeeded, (1) `FetchMetrics` returns a nil error;
(2) for the `i`-th fixed metric name `m`, whose query is made at clock reading
`i + 1`, if that query fails or returns zero data points then `GetLastPoint`
returns an error for it and `m` is not a key of the returned map; (3) in any
environment that differs only in the outcome of the queries for `m`, the entry of
every other metric is the same. -/
theorem C3_failed_metric_omitted {V : Type} [Zero V] (env : Env V) (p : SQSPlugin)
    (auth : Auth) (cw : CloudWatch)
    (hauth : env.GetAuth p.AccessKeyId p.SecretAccessKey "" (env.Now 0) = .ok auth)
    (hcw : env.NewCloudWatch auth (env.CloudWatchServicepoint p.Region) = .ok cw) :
    (SQSPlugin.FetchMetrics env p).err = none ∧
    (∀ (i : Nat) (m : String), metricNames[i]? = some m →
      ((∃ e, env.GetMetricStatistics cw (GetLastPoint.request (env.Now (i + 1))
          { Name := "QueueName", Value := p.QueueName } m) = .error e) ∨
        ∃ resp, env.GetMetricStatistics cw (GetLastPoint.request (env.Now (i + 1))
          { Name := "QueueName", Value := p.QueueName } m) = .ok resp ∧
          resp.GetMetricStatisticsResult.Datapoints = []) →
      (GetLastPoint env (env.Now (i + 1)) cw
        { Name := "QueueName", Value := p.QueueName } m).2 ≠ none ∧
      ∃ s, (SQSPlugin.FetchMetrics env p).stat = some s ∧ m ∉ s.keys) ∧
    (∀ (m : String) (env' : Env V), env'.Now = env.Now → env'.GetAuth = env.GetAuth →
      env'.CloudWatchServicepoint = env.CloudWatchServicepoint →
      env'.NewCloudWatch = env.NewCloudWatch →
      (∀ req, req.MetricName ≠ m →
        env'.GetMetricStatistics cw req = env.GetMetricStatistics cw req) →
      (SQSPlugin.FetchMetrics env' p).err = none ∧
      ∀ k, k ≠ m →
        (SQSPlugin.FetchMetrics env' p).value? k = (SQSPlugin.FetchMetrics env p).value? k) := by
  refine ⟨?_, ?_, ?_⟩
  · rw [FetchMetrics_ok env p auth cw hauth hcw]
  · intro i m hi hfail
    have herr : (GetLastPoint env (env.Now (i + 1)) cw
        { Name := "QueueName", Value := p.QueueName } m).2 ≠ none := by
      rcases hfail with ⟨e, he⟩ | ⟨resp, hresp, hnil⟩
      · rw [GetLastPoint_error env _ cw _ m e he]; simp
      · rw [GetLastPoint_empty env _ cw _ m resp hresp hnil]; simp
    refine ⟨herr, _, by rw [FetchMetrics_ok env p auth cw hauth hcw], ?_⟩
    apply GoMap.not_mem_keys_of_get?_eq_none
    have hat := (loop_get?_at env cw { Name := "QueueName", Value := p.QueueName }
      metricNames metricNames_nodup 1 ([], []) i m hi).2
    rw [Nat.add_comm 1 i] at hat
    rw [hat herr]
    rfl
  · intro m env' hnow hga hsp hncw hgms
    have hauth' : env'.GetAuth p.AccessKeyId p.SecretAccessKey "" (env'.Now 0) = .ok auth := by
      rw [hga, hnow]; exact hauth
    have hcw' : env'.NewCloudWatch auth (env'.CloudWatchServicepoint p.Region) = .ok cw := by
      rw [hncw, hsp]; exact hcw
    rw [FetchMetrics_ok env p auth cw hauth hcw, FetchMetrics_ok env' p auth cw hauth' hcw']
    refine ⟨rfl, ?_⟩
    intro k hk
    simp only [FetchResult.value?, Option.bind]
    exact loop_agree_off env' env cw _ m hnow hgms metricNames 1 ([], []) ([], [])
      (fun _ _ => rfl) k hk

/-- Witness of C3: in `envMixed` the query for `SentMessageSize` (index 1) fails
and the one for `NumberOfEmptyReceives` (index 3) returns no data point; both are
absent from the map, and the entry of `NumberOfMessagesSent` is the one obtained
when the query for `SentMessageSize` succeeds. -/
theorem C3_failed_metric_omitted_witness :
    (SQSPlugin.FetchMetrics envMixed plugin₀).err = none ∧
    ((GetLastPoint envMixed (envMixed.Now (1 + 1)) cw₀
        { Name := "QueueName", Value := plugin₀.QueueName } "SentMessageSize").2 ≠ none ∧
      ∃ s, (SQSPlugin.FetchMetrics envMixed plugin₀).stat = some s ∧
        "SentMessageSize" ∉ s.keys) ∧
    ((GetLastPoint envMixed (envMixed.Now (3 + 1)) cw₀
        { Name := "QueueName", Value := plugin₀.QueueName } "NumberOfEmptyReceives").2 ≠ none ∧
      ∃ s, (SQSPlugin.FetchMetrics envMixed plugin₀).stat = some s ∧
        "NumberOfEmptyReceives" ∉ s.keys) ∧
    (SQSPlugin.FetchMetrics envMixedRepaired plugin₀).value? "NumberOfMessagesSent"
      = (SQSPlugin.FetchMetrics envMixed plugin₀).value? "NumberOfMessagesSent" :=
  have h := C3_failed_metric_omitted envMixed plugin₀
    { AccessKey := "a", SecretKey := "s" }
    { Service := { Endpoint := "r", Signer := 0 },
      Auth := { AccessKey := "a", SecretKey := "s" } } rfl rfl
  ⟨h.1,
    h.2.1 1 "SentMessageSize" rfl (Or.inl ⟨errorsNew "timeout", rfl⟩),
    h.2.1 3 "NumberOfEmptyReceives" rfl
      (Or.inr ⟨{ GetMetricStatisticsResult := { Datapoints := [] } }, rfl, rfl⟩),
    (h.2.2 "SentMessageSize" envMixedRepaired rfl rfl rfl rfl
      (fun req hreq => by
        simp only [envMixedRepaired, envMixed, Env.ofOutcomes, hreq, if_false])).2
      "NumberOfMessagesSent" (by decide)⟩

/-- C4, as stated, fails: when every query returns `[(t=-200, v=5), (t=-100,
v=7)]`, the latest-timestamp point of each metric has value `7`, but every one of
the 8 entries of the map is `0`. -/
theorem C4_counterexample :
    (∀ e ∈ pointsBeforeEpoch, e.Timestamp ≤ (Datapoint.ofAverage (-100) (7 : ℚ)).Timestamp) ∧
    Datapoint.ofAverage (-100) (7 : ℚ) ∈ pointsBeforeEpoch ∧
    (∀ (now : Time) (cw : CloudWatch) (dim : Dimension) (m : String),
      (envAll pointsBeforeEpoch).GetMetricStatistics cw (GetLastPoint.request now dim m)
        = .ok { GetMetricStatisticsResult := { Datapoints := pointsBeforeEpoch } }) ∧
    (SQSPlugin.FetchMetrics (envAll pointsBeforeEpoch) plugin₀).err = none ∧
    ∀ m ∈ metricNames,
      (SQSPlugin.FetchMetrics (envAll pointsBeforeEpoch) plugin₀).value? m = some 0 ∧
      (SQSPlugin.FetchMetrics (envAll pointsBeforeEpoch) plugin₀).value? m
        ≠ some (Datapoint.ofAverage (-100) (7 : ℚ)).Average :=
  ⟨by decide, by decide, fun _ _ _ _ => rfl, by decide, by decide⟩

/-- C4 (amended): if client setup succeeds and the query for each of the 8 fixed
metric names (the `i`-th being made at clock reading `i + 1`) succeeds with a
non-empty list of data points, then `FetchMetrics` returns a nil error and a map
with exactly 8 entries whose keys are the 8 fixed names, and the entry of each
metric is the value of the last point, in response order, among those with the
maximum timestamp, whenever that timestamp is at or after the Unix epoch. -/
theorem C4_FetchMetrics_all_succeed {V : Type} [Zero V] (env : Env V) (p : SQSPlugin)
    (auth : Auth) (cw : CloudWatch)
    (hauth : env.GetAuth p.AccessKeyId p.SecretAccessKey "" (env.Now 0) = .ok auth)
    (hcw : env.NewCloudWatch auth (env.CloudWatchServicepoint p.Region) = .ok cw)
    (hall : ∀ (i : Nat) (m : String), metricNames[i]? = some m →
      ∃ resp, env.GetMetricStatistics cw (GetLastPoint.request (env.Now (i + 1))
          { Name := "QueueName", Value := p.QueueName } m) = .ok resp ∧
        resp.GetMetricStatisticsResult.Datapoints ≠ []) :
    ∃ s, (SQSPlugin.FetchMetrics env p).stat = some s ∧
      (SQSPlugin.FetchMetrics env p).err = none ∧
      s.length = 8 ∧
      s.keys =
        [ "NumberOfMessagesSent", "SentMessageSize", "NumberOfMessagesReceived",
          "NumberOfEmptyReceives", "NumberOfMessagesDeleted",
          "ApproximateNumberOfMessagesDelayed", "ApproximateNumberOfMessagesVisible",
          "ApproximateNumberOfMessagesNotVisible" ] ∧
      ∀ (i : Nat) (m : String) (resp : GetMetricStatisticsResponse V)
        (pre post : List (Datapoint V)) (d : Datapoint V),
        metricNames[i]? = some m →
        env.GetMetricStatistics cw (GetLastPoint.request (env.Now (i + 1))
          { Name := "QueueName", Value := p.QueueName } m) = .ok resp →
        resp.GetMetricStatisticsResult.Datapoints = pre ++ d :: post →
        (∀ e ∈ pre, e.Timestamp ≤ d.Timestamp) → (∀ e ∈ post, e.Timestamp < d.Timestamp) →
        timeUnix 0 0 ≤ d.Timestamp →
        s.get? m = some d.Average := by
  have hok : ∀ (i : Nat) (m : String), metricNames[i]? = some m →
      (GetLastPoint env (env.Now (1 + i)) cw
        { Name := "QueueName", Value := p.QueueName } m).2 = none := by
    intro i m hi
    obtain ⟨resp, hresp, hne⟩ := hall i m hi
    rw [Nat.add_comm 1 i, GetLastPoint_ok env _ cw _ m resp hresp hne]
  have hkeys := loop_keys_all_ok env cw { Name := "QueueName", Value := p.QueueName }
    metricNames metricNames_nodup 1 ([], []) (fun _ _ h => by simp [GoMap.keys] at h) hok
  refine ⟨_, by rw [FetchMetrics_ok env p auth cw hauth hcw], ?_, ?_, ?_, ?_⟩
  · rw [FetchMetrics_ok env p auth cw hauth hcw]
  · have hlen := congrArg List.length hkeys
    simp only [GoMap.keys, List.length_map] at hlen
    rw [hlen]
    rfl
  · rw [hkeys]
    rfl
  · intro i m resp pre post d hi hresp hsplit hpre hpost hepoch
    have hne : resp.GetMetricStatisticsResult.Datapoints ≠ [] := by rw [hsplit]; simp
    have hat := (loop_get?_at env cw { Name := "QueueName", Value := p.QueueName }
      metricNames metricNames_nodup 1 ([], []) i m hi).1 (hok i m hi)
    rw [hat, Nat.add_comm 1 i, GetLastPoint_ok env _ cw _ m resp hresp hne, GetLastPoint.scan,
      hsplit, foldl_step_latest pre post d _ hepoch hpre hpost]

/-- Witness of C4 (amended): when every query returns `[(t=100, v=5.0), (t=160,
v=7.0), (t=130, v=6.0)]` the map has 8 entries, each of value `7.0`. -/
theorem C4_FetchMetrics_all_succeed_witness :
    ∃ s, (SQSPlugin.FetchMetrics (envAll points₁) plugin₀).stat = some s ∧
      s.length = 8 ∧ s.keys = metricNames ∧ ∀ m ∈ metricNames, s.get? m = some 7 := by
  obtain ⟨s, hs, _, hlen, hkeys, hval⟩ := C4_FetchMetrics_all_succeed (envAll points₁) plugin₀
    { AccessKey := "a", SecretKey := "s" }
    { Service := { Endpoint := "r", Signer := 0 },
      Auth := { AccessKey := "a", SecretKey := "s" } } rfl rfl
    (fun i m _ => ⟨{ GetMetricStatisticsResult := { Datapoints := points₁ } }, rfl,
      by decide⟩)
  refine ⟨s, hs, hlen, hkeys, ?_⟩
  intro m hm
  obtain ⟨i, hi⟩ := List.getElem?_of_mem hm
  exact hval i m { GetMetricStatisticsResult := { Datapoints := points₁ } }
    [Datapoint.ofAverage 100 5] [Datapoint.ofAverage 130 6] (Datapoint.ofAverage 160 7)
    hi rfl rfl (by decide) (by decide) (by decide)

end AwsSqs
